import Mathlib

/-!
Verification of the MCP HTTP gateway
(src/internal/scaffold/templates/advanced/tools/mcp-gateway.py).

The gateway is a small Python HTTP server bridging JSON-RPC 2.0 requests to a
PostgreSQL-resident dispatcher.  This file shallowly embeds its
request-handling pipeline:

* a `Json` value type standing for the Python objects handled by the `json`
  module (numbers are modelled as integers; the gateway never produces or
  inspects fractional numbers itself);
* `jsonLoads`, a model of `json.loads` applied to the raw request bytes:
  CPython first sniffs the encoding with `json.detect_encoding` (UTF-16 and
  UTF-32 byte-order marks and NUL patterns, the UTF-8 BOM, UTF-8 default),
  decodes the bytes under that encoding with `errors='surrogatepass'` (a
  failure raises `UnicodeDecodeError`, which is *not* a
  `json.JSONDecodeError`) and then parses the decoded text (a failure
  raises `JSONDecodeError`);
* `dumps`, a model of `json.dumps` with its default separators and
  `ensure_ascii=True`;
* the header lookup `headersGet` (`email.message.Message.get`: first match,
  case-insensitive), the context extraction of `do_POST`, `dict.get`
  modelled by `pyGet` (raising `AttributeError` on non-mapping receivers);
* an event-trace semantics `handleRequest` of the handler class, covering
  `do_POST`, `do_GET`, the base class's 501 answer for methods without a
  `do_<METHOD>` attribute, and a `Backend` oracle for the psycopg
  connection/query outcomes.
-/

/-- JSON values as handled by Python's `json` module.  Object members keep
their textual order (CPython dicts preserve insertion order).  Numeric
values are modelled as integers: the gateway itself only ever builds the
integer error codes `-32700`/`-32603`, and all remaining payloads are opaque
to it. -/
inductive Json where
  | null
  | bool (b : Bool)
  | num (n : Int)
  | str (s : String)
  | arr (elems : List Json)
  | obj (members : List (String × Json))

/-- The Python exception classes distinguished by the gateway's control flow.
`do_POST` catches `json.JSONDecodeError` around the parse and any `Exception`
around the backend call; `UnicodeDecodeError` (raised by `json.loads` on
undecodable bytes) and `AttributeError` (raised by `request.get` when the
parsed request is not a dict) escape the handler uncaught. -/
inductive PyExc where
  | unicodeDecodeError
  | jsonDecodeError
  | attributeError
  deriving Repr, DecidableEq

/-- UTF-8 decoding of a byte sequence to code points, as performed by
`bytes.decode('utf-8', 'surrogatepass')` inside `json.loads`: the strict
UTF-8 ranges, except that 3-byte encodings of surrogate code points
(`ED A0..BF xx`), which a strict decoder rejects, are passed through —
that is exactly the relaxation `surrogatepass` makes. -/
def utf8Decode : List Nat → Option (List Nat)
  | [] => some []
  | b :: bs =>
    if b < 0x80 then
      (utf8Decode bs).map (fun cs => b :: cs)
    else if 0xC2 ≤ b ∧ b ≤ 0xDF then
      match bs with
      | c1 :: bs1 =>
        if 0x80 ≤ c1 ∧ c1 ≤ 0xBF then
          (utf8Decode bs1).map (fun cs => ((b - 0xC0) * 0x40 + (c1 - 0x80)) :: cs)
        else none
      | [] => none
    else if 0xE0 ≤ b ∧ b ≤ 0xEF then
      match bs with
      | c1 :: c2 :: bs1 =>
        let lo1 : Nat := if b = 0xE0 then 0xA0 else 0x80
        if lo1 ≤ c1 ∧ c1 ≤ 0xBF ∧ 0x80 ≤ c2 ∧ c2 ≤ 0xBF then
          (utf8Decode bs1).map (fun cs =>
            ((b - 0xE0) * 0x1000 + (c1 - 0x80) * 0x40 + (c2 - 0x80)) :: cs)
        else none
      | _ => none
    else if 0xF0 ≤ b ∧ b ≤ 0xF4 then
      match bs with
      | c1 :: c2 :: c3 :: bs1 =>
        let lo1 : Nat := if b = 0xF0 then 0x90 else 0x80
        let hi1 : Nat := if b = 0xF4 then 0x8F else 0xBF
        if lo1 ≤ c1 ∧ c1 ≤ hi1 ∧ 0x80 ≤ c2 ∧ c2 ≤ 0xBF ∧ 0x80 ≤ c3 ∧ c3 ≤ 0xBF then
          (utf8Decode bs1).map (fun cs =>
            ((b - 0xF0) * 0x40000 + (c1 - 0x80) * 0x1000 +
              (c2 - 0x80) * 0x40 + (c3 - 0x80)) :: cs)
        else none
      | _ => none
    else none

/-- Whether the second byte list starts with the first (``bytes.startswith``). -/
def bytesStartWith : List Nat → List Nat → Bool
  | [], _ => true
  | p :: ps, q :: qs => p = q && bytesStartWith ps qs
  | _ :: _, [] => false

/-- The encodings `json.detect_encoding` can select. -/
inductive JsonEnc where
  | utf32
  | utf16
  | utf8sig
  | utf16be
  | utf16le
  | utf32be
  | utf32le
  | utf8
  deriving Repr, DecidableEq

/-- `json.detect_encoding`, line for line: the UTF-32 byte-order marks, then
the UTF-16 ones, then the UTF-8 one; for un-marked bodies of length at least
4 the NUL patterns of the first bytes, for length exactly 2 the one-NUL
patterns; default UTF-8. -/
def detectEncoding (b : List Nat) : JsonEnc :=
  if bytesStartWith [0x00, 0x00, 0xFE, 0xFF] b || bytesStartWith [0xFF, 0xFE, 0x00, 0x00] b then
    JsonEnc.utf32
  else if bytesStartWith [0xFE, 0xFF] b || bytesStartWith [0xFF, 0xFE] b then
    JsonEnc.utf16
  else if bytesStartWith [0xEF, 0xBB, 0xBF] b then
    JsonEnc.utf8sig
  else
    match b with
    | b0 :: b1 :: b2 :: b3 :: _ =>
      if b0 = 0 then (if b1 ≠ 0 then JsonEnc.utf16be else JsonEnc.utf32be)
      else if b1 = 0 then
        (if b2 ≠ 0 ∨ b3 ≠ 0 then JsonEnc.utf16le else JsonEnc.utf32le)
      else JsonEnc.utf8
    | [b0, b1] =>
      if b0 = 0 then JsonEnc.utf16be
      else if b1 = 0 then JsonEnc.utf16le
      else JsonEnc.utf8
    | _ => JsonEnc.utf8

/-- Group bytes into 16-bit units (big-endian when the flag holds); an odd
trailing byte is the codec's "truncated data" `UnicodeDecodeError`. -/
def utf16Units : Bool → List Nat → Option (List Nat)
  | _, [] => some []
  | be, b0 :: b1 :: bs =>
    (utf16Units be bs).map (fun us => (if be then b0 * 256 + b1 else b1 * 256 + b0) :: us)
  | _, [_] => none

/-- Combine UTF-16 surrogate pairs into supplementary code points; unpaired
surrogates are passed through, as `errors='surrogatepass'` does. -/
def utf16Combine : List Nat → List Nat
  | [] => []
  | u :: us =>
    if 0xD800 ≤ u ∧ u ≤ 0xDBFF then
      match us with
      | v :: vs =>
        if 0xDC00 ≤ v ∧ v ≤ 0xDFFF then
          (0x10000 + (u - 0xD800) * 0x400 + (v - 0xDC00)) :: utf16Combine vs
        else u :: utf16Combine (v :: vs)
      | [] => [u]
    else u :: utf16Combine us

/-- `bytes.decode('utf-16-be'/'utf-16-le', 'surrogatepass')` to code points. -/
def utf16Decode (be : Bool) (bs : List Nat) : Option (List Nat) :=
  (utf16Units be bs).map utf16Combine

/-- `bytes.decode('utf-32-be'/'utf-32-le', 'surrogatepass')` to code points:
4-byte units, values beyond U+10FFFF rejected, surrogate values passed, a
ragged tail is "truncated data". -/
def utf32Decode (be : Bool) : List Nat → Option (List Nat)
  | [] => some []
  | b0 :: b1 :: b2 :: b3 :: bs =>
    let u : Nat :=
      if be then ((b0 * 256 + b1) * 256 + b2) * 256 + b3
      else ((b3 * 256 + b2) * 256 + b1) * 256 + b0
    if u ≤ 0x10FFFF then (utf32Decode be bs).map (fun us => u :: us) else none
  | _ => none

/-- `bytes.decode(enc, 'surrogatepass')` for each encoding
`json.detect_encoding` can pick; the BOM-marked variants consume their mark
(`detectEncoding` selects them only when it is present) and take their
endianness from it.  `none` is a `UnicodeDecodeError`. -/
def decodeBytes : JsonEnc → List Nat → Option (List Nat)
  | JsonEnc.utf32, bs =>
    if bytesStartWith [0x00, 0x00, 0xFE, 0xFF] bs then utf32Decode true (bs.drop 4)
    else utf32Decode false (bs.drop 4)
  | JsonEnc.utf16, bs =>
    if bytesStartWith [0xFE, 0xFF] bs then utf16Decode true (bs.drop 2)
    else utf16Decode false (bs.drop 2)
  | JsonEnc.utf8sig, bs => utf8Decode (bs.drop 3)
  | JsonEnc.utf16be, bs => utf16Decode true bs
  | JsonEnc.utf16le, bs => utf16Decode false bs
  | JsonEnc.utf32be, bs => utf32Decode true bs
  | JsonEnc.utf32le, bs => utf32Decode false bs
  | JsonEnc.utf8, bs => utf8Decode bs

/-- A decoded code point as a parser character.  `surrogatepass` can leave
lone surrogate code points in the decoded text, which Lean's `Char` cannot
carry; they are mapped to U+FFFD, which occupies exactly the same place in
the JSON grammar (legal inside a string literal, illegal outside one), so
every parse outcome is classified as CPython classifies it and only the
textual identity of such characters inside exotic string literals is
approximated. -/
def cpChar (n : Nat) : Char :=
  if 0xD800 ≤ n ∧ n ≤ 0xDFFF then Char.ofNat 0xFFFD else Char.ofNat n

/-- JSON insignificant whitespace. -/
def jsonWs (c : Char) : Bool :=
  c = ' ' || c = '\t' || c = '\n' || c = '\r'

/-- Drop leading JSON whitespace. -/
def skipWs : List Char → List Char
  | [] => []
  | c :: cs => if jsonWs c then skipWs cs else c :: cs

/-- Value of a hexadecimal digit. -/
def hexVal (c : Char) : Option Nat :=
  if '0' ≤ c ∧ c ≤ '9' then some (c.toNat - '0'.toNat)
  else if 'a' ≤ c ∧ c ≤ 'f' then some (c.toNat - 'a'.toNat + 10)
  else if 'A' ≤ c ∧ c ≤ 'F' then some (c.toNat - 'A'.toNat + 10)
  else none

/-- The two-character escape sequences of JSON strings. -/
def escMap (e : Char) : Option Char :=
  if e = '\"' then some '\"'
  else if e = '\\' then some '\\'
  else if e = '/' then some '/'
  else if e = 'b' then some (Char.ofNat 8)
  else if e = 'f' then some (Char.ofNat 12)
  else if e = 'n' then some '\n'
  else if e = 'r' then some '\r'
  else if e = 't' then some '\t'
  else none

/-- Parse the remainder of a JSON string literal (the opening quote already
consumed), returning the decoded characters and the rest of the input.  Raw
control characters are rejected, as by `json.loads` in strict mode.  A
`\uXXXX` escape always yields one content character (surrogate values go
through `cpChar`); pair combination of consecutive surrogate escapes is a
content-only refinement not modelled, and no claim exercises it. -/
def parseStringBody : List Char → Option (List Char × List Char)
  | [] => none
  | c :: cs =>
    if c = '\"' then some ([], cs)
    else if c = '\\' then
      match cs with
      | [] => none
      | e :: cs1 =>
        if e = 'u' then
          match cs1 with
          | h1 :: h2 :: h3 :: h4 :: cs2 =>
            match hexVal h1, hexVal h2, hexVal h3, hexVal h4 with
            | some a, some b, some c2, some d =>
              (parseStringBody cs2).map
                (fun r => (cpChar (a * 4096 + b * 256 + c2 * 16 + d) :: r.1, r.2))
            | _, _, _, _ => none
          | _ => none
        else
          match escMap e with
          | some c1 => (parseStringBody cs1).map (fun r => (c1 :: r.1, r.2))
          | none => none
    else if c.toNat < 0x20 then none
    else (parseStringBody cs).map (fun r => (c :: r.1, r.2))

/-- Consume a run of decimal digits, accumulating their value. -/
def digitsVal : List Char → Nat → Nat × List Char
  | [], acc => (acc, [])
  | c :: cs, acc =>
    if '0' ≤ c ∧ c ≤ '9' then digitsVal cs (acc * 10 + (c.toNat - '0'.toNat))
    else (acc, c :: cs)

/-- Parse a JSON integer numeral (an optional minus sign and digits).
Fractional and exponent forms, which the gateway never produces and no claim
exercises, are outside this model. -/
def parseNumber : List Char → Option (Json × List Char)
  | '-' :: c :: cs =>
    if '0' ≤ c ∧ c ≤ '9' then
      let r := digitsVal cs (c.toNat - '0'.toNat)
      some (Json.num (-(r.1 : Int)), r.2)
    else none
  | c :: cs =>
    if '0' ≤ c ∧ c ≤ '9' then
      let r := digitsVal cs (c.toNat - '0'.toNat)
      some (Json.num (r.1 : Int), r.2)
    else none
  | [] => none

/-- Match a literal word at the head of the input. -/
def matchLit : List Char → List Char → Option (List Char)
  | [], s => some s
  | c :: cs, d :: ds => if c = d then matchLit cs ds else none
  | _ :: _, [] => none

mutual

/-- Fueled recursive-descent parser for one JSON value, mirroring the JSON
grammar accepted by `json.loads`.  Fuel only guards termination; it is
instantiated generously by `jsonParse`. -/
def parseValue : Nat → List Char → Option (Json × List Char)
  | 0, _ => none
  | fuel + 1, s =>
    match skipWs s with
    | [] => none
    | c :: cs =>
      if c = '\"' then
        (parseStringBody cs).map (fun r => (Json.str (String.mk r.1), r.2))
      else if c = Char.ofNat 123 then
        match skipWs cs with
        | d :: ds =>
          if d = Char.ofNat 125 then some (Json.obj [], ds)
          else (parseObjItems fuel (d :: ds)).map (fun r => (Json.obj r.1, r.2))
        | [] => none
      else if c = '[' then
        match skipWs cs with
        | d :: ds =>
          if d = ']' then some (Json.arr [], ds)
          else (parseArrItems fuel (d :: ds)).map (fun r => (Json.arr r.1, r.2))
        | [] => none
      else
        match matchLit ['t', 'r', 'u', 'e'] (c :: cs) with
        | some rest => some (Json.bool true, rest)
        | none =>
          match matchLit ['f', 'a', 'l', 's', 'e'] (c :: cs) with
          | some rest => some (Json.bool false, rest)
          | none =>
            match matchLit ['n', 'u', 'l', 'l'] (c :: cs) with
            | some rest => some (Json.null, rest)
            | none => parseNumber (c :: cs)

/-- Parse the comma-separated items of a non-empty JSON array, up to and
including the closing bracket. -/
def parseArrItems : Nat → List Char → Option (List Json × List Char)
  | 0, _ => none
  | fuel + 1, s =>
    match parseValue fuel s with
    | none => none
    | some (v, rest) =>
      match skipWs rest with
      | c :: cs =>
        if c = ',' then (parseArrItems fuel cs).map (fun r => (v :: r.1, r.2))
        else if c = ']' then some ([v], cs)
        else none
      | [] => none

/-- Parse the members of a non-empty JSON object, up to and including the
closing brace. -/
def parseObjItems : Nat → List Char → Option (List (String × Json) × List Char)
  | 0, _ => none
  | fuel + 1, s =>
    match skipWs s with
    | c :: cs =>
      if c = '\"' then
        match parseStringBody cs with
        | none => none
        | some (k, rest) =>
          match skipWs rest with
          | ':' :: rest1 =>
            match parseValue fuel rest1 with
            | none => none
            | some (v, rest2) =>
              match skipWs rest2 with
              | d :: ds =>
                if d = ',' then
                  (parseObjItems fuel ds).map (fun r => ((String.mk k, v) :: r.1, r.2))
                else if d = Char.ofNat 125 then some ([(String.mk k, v)], ds)
                else none
              | [] => none
          | _ => none
      else none
    | [] => none

end

/-- Parse a complete JSON document: one value surrounded by optional
whitespace, with nothing left over. -/
def jsonParse (s : List Char) : Option Json :=
  match parseValue (2 * s.length + 2) s with
  | some (v, rest) => if skipWs rest = [] then some v else none
  | none => none

/-- Model of `json.loads(body)` on the raw request bytes:
`body.decode(detect_encoding(body), 'surrogatepass')`, then parse.  A body
whose bytes fail to decode under the detected encoding raises
`UnicodeDecodeError`; a body that decodes but is not well-formed JSON text
raises `json.JSONDecodeError`. -/
def jsonLoads (body : List Nat) : Except PyExc Json :=
  match decodeBytes (detectEncoding body) body with
  | none => Except.error PyExc.unicodeDecodeError
  | some cps =>
    match jsonParse (cps.map cpChar) with
    | none => Except.error PyExc.jsonDecodeError
    | some v => Except.ok v

/-- Lower-case hexadecimal digit, as emitted by `json.dumps`. -/
def hexDigit (n : Nat) : Char :=
  if n < 10 then Char.ofNat ('0'.toNat + n) else Char.ofNat ('a'.toNat + n - 10)

/-- Four-digit lower-case hexadecimal rendering. -/
def hex4 (n : Nat) : String :=
  String.mk [hexDigit (n / 4096 % 16), hexDigit (n / 256 % 16),
    hexDigit (n / 16 % 16), hexDigit (n % 16)]

/-- `\uXXXX` escape used by `ensure_ascii`, with a surrogate pair beyond the
basic plane. -/
def uEscape (n : Nat) : String :=
  if n < 0x10000 then "\\u" ++ hex4 n
  else
    "\\u" ++ hex4 (0xD800 + (n - 0x10000) / 0x400) ++
      "\\u" ++ hex4 (0xDC00 + (n - 0x10000) % 0x400)

/-- Serialization of one string character under `json.dumps`'s defaults
(`ensure_ascii=True`): the short escapes, `\uXXXX` for remaining control and
non-ASCII characters, the character itself otherwise. -/
def dumpChar (c : Char) : String :=
  if c = '\"' then "\\\""
  else if c = '\\' then "\\\\"
  else if c = '\n' then "\\n"
  else if c = '\r' then "\\r"
  else if c = '\t' then "\\t"
  else if c = Char.ofNat 8 then "\\b"
  else if c = Char.ofNat 12 then "\\f"
  else if c.toNat < 0x20 ∨ 0x7E < c.toNat then uEscape c.toNat
  else String.mk [c]

/-- Serialization of a JSON string literal. -/
def dumpString (s : String) : String :=
  "\"" ++ String.join (s.toList.map dumpChar) ++ "\""

mutual

/-- Model of `json.dumps` with CPython's default separators: items joined by
a comma-space, keys and values by a colon-space. -/
def dumps : Json → String
  | Json.null => "null"
  | Json.bool true => "true"
  | Json.bool false => "false"
  | Json.num n => toString n
  | Json.str s => dumpString s
  | Json.arr xs => "[" ++ dumpsArr xs ++ "]"
  | Json.obj kvs => "\x7b" ++ dumpsObj kvs ++ "\x7d"

/-- Comma-separated serialization of array elements. -/
def dumpsArr : List Json → String
  | [] => ""
  | [x] => dumps x
  | x :: y :: xs => dumps x ++ ", " ++ dumpsArr (y :: xs)

/-- Comma-separated serialization of object members. -/
def dumpsObj : List (String × Json) → String
  | [] => ""
  | [(k, v)] => dumpString k ++ ": " ++ dumps v
  | (k, v) :: m :: kvs => dumpString k ++ ": " ++ dumps v ++ ", " ++ dumpsObj (m :: kvs)

end

/-- The UTF-8 bytes of an ASCII string, convenient for concrete request
bodies. -/
def strBytes (s : String) : List Nat := s.toList.map Char.toNat

/-- ASCII lower-casing of one character; HTTP header names are ASCII, so
this matches the `str.lower()` used by `email.message.Message.get`. -/
def asciiLower (c : Char) : Char :=
  if 'A' ≤ c ∧ c ≤ 'Z' then Char.ofNat (c.toNat + 32) else c

/-- Model of `self.headers.get(name)`: `email.message.Message.get` returns
the first header whose name matches case-insensitively, or `None`. -/
def headersGet (hs : List (String × String)) (name : String) : Option String :=
  (hs.find? (fun kv => kv.1.toList.map asciiLower == name.toList.map asciiLower)).map
    (fun kv => kv.2)

/-- Python truthiness of `self.headers.get(name)`: `None` and the empty
string are falsy, any other string truthy. -/
def truthyOpt : Option String → Bool
  | none => false
  | some s => !(s == "")

/-- Lines 112-116 of `do_POST`: build the authentication context dict by
adding `user_id` / `tenant_id` for each recognized header that is present
and non-empty.  Sequential insertion into an (order-preserving) dict is
modelled by list concatenation of the two optional singletons. -/
def extractContext (hs : List (String × String)) : List (String × String) :=
  (if truthyOpt (headersGet hs "X-User-Id") then
    [("user_id", (headersGet hs "X-User-Id").getD "")]
  else []) ++
  (if truthyOpt (headersGet hs "X-Tenant-Id") then
    [("tenant_id", (headersGet hs "X-Tenant-Id").getD "")]
  else [])

/-- The second query parameter of line 123,
`json.dumps(context) if context else None`: an empty context dict is falsy,
so SQL `NULL` is passed; otherwise the serialized context JSON. -/
def contextParam (hs : List (String × String)) : Option String :=
  if (extractContext hs).isEmpty then none
  else some (dumps (Json.obj ((extractContext hs).map (fun kv => (kv.1, Json.str kv.2)))))

/-- `request.get("id")` of line 129: Python `dict.get` yields the value, or
`None` when the key is absent; on a non-dict receiver the attribute lookup
itself raises `AttributeError`.  (`json.loads` keeps the last value for a
duplicated key, hence the reversed search.) -/
def pyGet : Json → String → Except PyExc Json
  | Json.obj kvs, k =>
    Except.ok (((kvs.reverse.find? (fun kv => kv.1 == k)).map (fun kv => kv.2)).getD Json.null)
  | _, _ => Except.error PyExc.attributeError

/-- Oracle for the backend store's behavior on one request: the outcome of
`psycopg.connect(DATABASE_URL)`, and the outcome of
`conn.execute("SELECT (api.mcp_handle_request(%s, %s)).envelope", [...]).fetchone()`
as a function of the two query parameters.  `Except.error msg` stands for a
raised exception with `str(e) = msg`; `Except.ok none` for `fetchone()`
returning no row; `Except.ok (some v)` for a row whose single column is the
envelope `v`, as the JSON value psycopg delivers to Python. -/
structure Backend where
  connectResult : Except String Unit
  queryResult : String → Option String → Except String (Option Json)

/-- Observable events of handling one request: entering the dispatch stage
(the `try` of lines 119-125), acquiring/releasing the scoped connection of
the `with` block, the single backend query with its two parameters, writing
a JSON response (`send_json_response`), writing a non-JSON error response
(`send_error`), and an exception escaping the handler uncaught — in which
case no response is written for the request. -/
inductive Event where
  | dispatchStart
  | acquire
  | release
  | query (request : String) (context : Option String)
  | respondJson (status : Nat) (payload : Json)
  | respondErr (status : Nat)
  | uncaught (e : PyExc)

/-- The parse-error envelope literal of lines 103-107. -/
def parseErrorEnvelope : Json :=
  Json.obj [("jsonrpc", Json.str "2.0"), ("id", Json.null),
    ("error", Json.obj [("code", Json.num (-32700)), ("message", Json.str "Parse error")])]

/-- The internal-error envelope of lines 127-131, with the defensively
looked-up id already supplied. -/
def internalErrorEnvelope (idv : Json) (msg : String) : Json :=
  Json.obj [("jsonrpc", Json.str "2.0"), ("id", idv),
    ("error", Json.obj [("code", Json.num (-32603)), ("message", Json.str msg)])]

/-- The `except Exception` path of lines 126-132: evaluating
`request.get("id")` — which raises `AttributeError` on a non-dict request,
leaving the handler without any response — and responding 500 with the
internal-error envelope otherwise. -/
def backendFailureEvents (request : Json) (msg : String) : List Event :=
  match pyGet request "id" with
  | Except.error e => [Event.uncaught e]
  | Except.ok idv => [Event.respondJson 500 (internalErrorEnvelope idv msg)]

/-- Event-trace semantics of `MCPHandler.do_POST` (lines 90-134).  Reading
the body (lines 97-98) is modelled as yielding the request's byte sequence.
The `except json.JSONDecodeError` clause catches exactly that exception;
a `UnicodeDecodeError` from `json.loads` escapes the handler.  The `with`
block releases the connection on every exit of the dispatch stage before
any response is written. -/
def doPOST (be : Backend) (path : String) (headers : List (String × String))
    (body : List Nat) : List Event :=
  if path ≠ "/mcp" then [Event.respondErr 404]
  else
    match jsonLoads body with
    | Except.error PyExc.jsonDecodeError => [Event.respondJson 400 parseErrorEnvelope]
    | Except.error e => [Event.uncaught e]
    | Except.ok request =>
      match be.connectResult with
      | Except.error msg => Event.dispatchStart :: backendFailureEvents request msg
      | Except.ok _ =>
        match be.queryResult (dumps request) (contextParam headers) with
        | Except.error msg =>
          Event.dispatchStart :: Event.acquire ::
            Event.query (dumps request) (contextParam headers) ::
            Event.release :: backendFailureEvents request msg
        | Except.ok row =>
          [Event.dispatchStart, Event.acquire,
            Event.query (dumps request) (contextParam headers),
            Event.release, Event.respondJson 200 (row.getD Json.null)]

/-- `MCPHandler.do_GET` (lines 136-141): the health check, 404 otherwise. -/
def doGET (path : String) : List Event :=
  if path = "/health" then
    [Event.respondJson 200 (Json.obj [("status", Json.str "healthy")])]
  else [Event.respondErr 404]

/-- Method dispatch of `http.server.BaseHTTPRequestHandler.handle_one_request`
(the inherited base class): the request method selects a `do_<METHOD>`
attribute; `MCPHandler` defines only `do_POST` and `do_GET`, and for any
other method the base class answers `501 Unsupported method`. -/
def handleRequest (be : Backend) (method path : String)
    (headers : List (String × String)) (body : List Nat) : List Event :=
  if method = "POST" then doPOST be path headers body
  else if method = "GET" then doGET path
  else [Event.respondErr 501]

/-- `MCPHandler.send_json_response` (lines 143-150): the HTTP body written
for a JSON response is exactly `json.dumps(data)`. -/
def sendJsonBody (data : Json) : String := dumps data

/-- The HTTP status codes of the responses written in a trace, in order. -/
def statuses (t : List Event) : List Nat :=
  t.filterMap (fun e => match e with
    | Event.respondJson s _ => some s
    | Event.respondErr s => some s
    | _ => none)

/-- Event classifiers for counting. -/
def isQuery : Event → Bool
  | Event.query _ _ => true
  | _ => false

def isDispatchStart : Event → Bool
  | Event.dispatchStart => true
  | _ => false

def isAcquire : Event → Bool
  | Event.acquire => true
  | _ => false

def isRelease : Event → Bool
  | Event.release => true
  | _ => false

/-- Scan a trace checking the connection discipline: the connection is never
re-acquired while held, queries run only while it is held, every response
and every escaping exception happens with the connection already released,
and handling never ends still holding it. -/
def connSafe : List Event → Bool → Bool
  | [], held => !held
  | Event.dispatchStart :: t, held => connSafe t held
  | Event.acquire :: t, held => !held && connSafe t true
  | Event.release :: t, held => held && connSafe t false
  | Event.query _ _ :: t, held => held && connSafe t held
  | Event.respondJson _ _ :: t, held => !held && connSafe t held
  | Event.respondErr _ :: t, held => !held && connSafe t held
  | Event.uncaught _ :: t, held => !held && connSafe t held

/-- A fixed benign backend for concrete test inputs: connecting succeeds and
every query yields no row. -/
def trivBackend : Backend :=
  ⟨Except.ok (), fun _ _ => Except.ok none⟩

/-- A fixed failing backend for concrete test inputs: connecting succeeds
and every query raises an exception rendered as `"boom"`. -/
def boomBackend : Backend :=
  ⟨Except.ok (), fun _ _ => Except.error "boom"⟩

/-- A fixed echoing backend for concrete test inputs: connecting succeeds
and every query returns one row echoing the two parameters. -/
def echoBackend : Backend :=
  ⟨Except.ok (), fun req ctx =>
    Except.ok (some (Json.obj [("req", Json.str req),
      ("ctx", match ctx with | some c => Json.str c | none => Json.null)]))⟩

/-- A fixed backend whose connection attempt fails. -/
def connFailBackend : Backend :=
  ⟨Except.error "connection refused", fun _ _ => Except.ok none⟩

/-- Whether a JSON value is an object (a Python mapping). -/
def Json.isObjB : Json → Bool
  | Json.obj _ => true
  | _ => false

/-! ### Branch lemmas for `doPOST`

One lemma per control-flow branch of `do_POST`, in terms of the outcome of
`json.loads` and the backend oracle. -/

/-- When `psycopg.connect` raises, the dispatch stage is entered, no
connection is held, and the `except Exception` path runs. -/
theorem doPOST_connect_failure (be : Backend) (headers : List (String × String))
    (body : List Nat) (req : Json) (msg : String)
    (hparse : jsonLoads body = Except.ok req)
    (hconn : be.connectResult = Except.error msg) :
    doPOST be "/mcp" headers body = Event.dispatchStart :: backendFailureEvents req msg := by
  simp [doPOST, hparse, hconn]

/-- When the query raises, the connection is acquired, the single query runs,
the `with` block releases the connection, and the `except Exception` path
runs. -/
theorem doPOST_query_failure (be : Backend) (headers : List (String × String))
    (body : List Nat) (req : Json) (msg : String)
    (hparse : jsonLoads body = Except.ok req)
    (hconn : be.connectResult = Except.ok ())
    (hq : be.queryResult (dumps req) (contextParam headers) = Except.error msg) :
    doPOST be "/mcp" headers body =
      Event.dispatchStart :: Event.acquire ::
        Event.query (dumps req) (contextParam headers) ::
        Event.release :: backendFailureEvents req msg := by
  simp [doPOST, hparse, hconn, hq]

/-- When the query succeeds, the connection is released and the row's
envelope (or `None` when there is no row) is sent back with status 200. -/
theorem doPOST_query_ok (be : Backend) (headers : List (String × String))
    (body : List Nat) (req : Json) (row : Option Json)
    (hparse : jsonLoads body = Except.ok req)
    (hconn : be.connectResult = Except.ok ())
    (hq : be.queryResult (dumps req) (contextParam headers) = Except.ok row) :
    doPOST be "/mcp" headers body =
      [Event.dispatchStart, Event.acquire,
        Event.query (dumps req) (contextParam headers),
        Event.release, Event.respondJson 200 (row.getD Json.null)] := by
  simp [doPOST, hparse, hconn, hq]

/-! ### C1 — behavior when the backend produces no result row -/

/-- C1, counterexample: for the parsed request `\x7b\x7d` against a backend
whose dispatch call yields no row, the gateway responds 200 with the
serialization of `None` (`null`), not 500 with a `-32603` envelope as
claimed. -/
theorem no_row_gives_200_counterexample :
    doPOST trivBackend "/mcp" [] (strBytes "\x7b\x7d") =
      [Event.dispatchStart, Event.acquire, Event.query "\x7b\x7d" none,
        Event.release, Event.respondJson 200 Json.null] ∧
    statuses (doPOST trivBackend "/mcp" [] (strBytes "\x7b\x7d")) = [200] ∧
    sendJsonBody Json.null = "null" := by
  exact ⟨rfl, rfl, rfl⟩

/-- C1, amended: for every POST `/mcp` request whose body parses and whose
backend dispatch call produces no result row, the gateway treats the missing
row as envelope `None` and responds 200 with body `null` — it does not
synthesize a backend error. -/
theorem no_row_responds_200_null (be : Backend) (headers : List (String × String))
    (body : List Nat) (req : Json)
    (hparse : jsonLoads body = Except.ok req)
    (hconn : be.connectResult = Except.ok ())
    (hq : be.queryResult (dumps req) (contextParam headers) = Except.ok none) :
    doPOST be "/mcp" headers body =
      [Event.dispatchStart, Event.acquire,
        Event.query (dumps req) (contextParam headers),
        Event.release, Event.respondJson 200 Json.null] ∧
    sendJsonBody Json.null = "null" := by
  exact ⟨doPOST_query_ok be headers body req none hparse hconn hq, rfl⟩

/-- C1, witness for the amended theorem at a concrete request. -/
theorem no_row_responds_200_null_witness :
    doPOST trivBackend "/mcp" [("X-User-Id", "u")] (strBytes "\x7b\"id\": 1\x7d") =
      [Event.dispatchStart, Event.acquire,
        Event.query (dumps (Json.obj [("id", Json.num 1)]))
          (contextParam [("X-User-Id", "u")]),
        Event.release, Event.respondJson 200 Json.null] ∧
    sendJsonBody Json.null = "null" :=
  no_row_responds_200_null trivBackend [("X-User-Id", "u")]
    (strBytes "\x7b\"id\": 1\x7d") (Json.obj [("id", Json.num 1)]) rfl rfl rfl

/-! ### C3 — behavior on bodies that are not well-formed JSON -/

/-- Classification of `jsonLoads` on encoding-sniffed and surrogate bodies,
matching CPython byte for byte: `00 31` (UTF-16-BE), `EF BB BF 31`
(UTF-8 with BOM) and `FF FE 31 00` (UTF-16 with BOM) all parse to `1` and
so reach dispatch; `22 ED A0 80 22` decodes under `surrogatepass` and
parses as a one-character string; the bare `ED A0 80` decodes to a lone
surrogate that is not JSON text (`JSONDecodeError`, hence a 400); the bare
byte `FF` fails to decode (`UnicodeDecodeError`); an odd-length sniffed
UTF-16-BE body is truncated data (`UnicodeDecodeError`). -/
theorem jsonLoads_sniffed_bodies :
    jsonLoads [0x00, 0x31] = Except.ok (Json.num 1) ∧
    jsonLoads [0xEF, 0xBB, 0xBF, 0x31] = Except.ok (Json.num 1) ∧
    jsonLoads [0xFF, 0xFE, 0x31, 0x00] = Except.ok (Json.num 1) ∧
    jsonLoads [0x22, 0xED, 0xA0, 0x80, 0x22] =
      Except.ok (Json.str (String.mk [Char.ofNat 0xFFFD])) ∧
    jsonLoads [0xED, 0xA0, 0x80] = Except.error PyExc.jsonDecodeError ∧
    jsonLoads [0xFF] = Except.error PyExc.unicodeDecodeError ∧
    jsonLoads [0x00, 0x31, 0x00, 0x32, 0x00] = Except.error PyExc.unicodeDecodeError := by
  exact ⟨rfl, rfl, rfl, rfl, rfl, rfl, rfl⟩

/-- C4, confirmed: for every POST `/mcp` request with a parsable body and any
headers, when the backend dispatch succeeds with a row the gateway responds
200 and the HTTP body is exactly the backend's envelope re-serialized from
the parsed value, with no mutation, wrapping or reformatting. -/
theorem success_relays_envelope_verbatim (be : Backend)
    (headers : List (String × String)) (body : List Nat) (req env : Json)
    (hparse : jsonLoads body = Except.ok req)
    (hconn : be.connectResult = Except.ok ())
    (hq : be.queryResult (dumps req) (contextParam headers) = Except.ok (some env)) :
    doPOST be "/mcp" headers body =
      [Event.dispatchStart, Event.acquire,
        Event.query (dumps req) (contextParam headers),
        Event.release, Event.respondJson 200 env] ∧
    sendJsonBody env = dumps env := by
  exact ⟨doPOST_query_ok be headers body req (some env) hparse hconn hq, rfl⟩

/-- C4, witness: a request with an `X-User-Id` header against the echoing
backend is answered 200 with exactly the envelope the backend returned for
the request and the extracted context. -/
theorem success_relays_envelope_verbatim_witness :
    doPOST echoBackend "/mcp" [("X-User-Id", "u1")] (strBytes "\x7b\"id\": \"7\"\x7d") =
      [Event.dispatchStart, Event.acquire,
        Event.query (dumps (Json.obj [("id", Json.str "7")]))
          (contextParam [("X-User-Id", "u1")]),
        Event.release,
        Event.respondJson 200 (Json.obj [("req", Json.str "\x7b\"id\": \"7\"\x7d"),
          ("ctx", Json.str "\x7b\"user_id\": \"u1\"\x7d")])] ∧
    sendJsonBody (Json.obj [("req", Json.str "\x7b\"id\": \"7\"\x7d"),
        ("ctx", Json.str "\x7b\"user_id\": \"u1\"\x7d")]) =
      dumps (Json.obj [("req", Json.str "\x7b\"id\": \"7\"\x7d"),
        ("ctx", Json.str "\x7b\"user_id\": \"u1\"\x7d")]) :=
  success_relays_envelope_verbatim echoBackend [("X-User-Id", "u1")]
    (strBytes "\x7b\"id\": \"7\"\x7d") (Json.obj [("id", Json.str "7")])
    (Json.obj [("req", Json.str "\x7b\"id\": \"7\"\x7d"),
      ("ctx", Json.str "\x7b\"user_id\": \"u1\"\x7d")]) rfl rfl rfl

/-! ### C2 — routing of method/path combinations -/

/-- C2, counterexample: a `PUT` (or `DELETE`) request is answered 501 by the
inherited `BaseHTTPRequestHandler` method dispatch (`MCPHandler` has no
`do_PUT`/`do_DELETE` attribute), not 404 as claimed. -/
theorem unsupported_method_501_counterexample :
    handleRequest trivBackend "PUT" "/mcp" [] [] = [Event.respondErr 501] ∧
    handleRequest trivBackend "DELETE" "/anything" [] [] = [Event.respondErr 501] ∧
    (501 : Nat) ≠ 404 := by
  exact ⟨rfl, rfl, by decide⟩

/-- C2, amended: a POST to a path other than `/mcp` and a GET to a path
other than `/health` are answered 404; a request whose method is neither
POST nor GET is answered 501 by the base class, whatever its path. -/
theorem routing_amended (be : Backend) (method path : String)
    (headers : List (String × String)) (body : List Nat) :
    (method = "POST" → path ≠ "/mcp" →
      handleRequest be method path headers body = [Event.respondErr 404]) ∧
    (method = "GET" → path ≠ "/health" →
      handleRequest be method path headers body = [Event.respondErr 404]) ∧
    (method ≠ "POST" → method ≠ "GET" →
      handleRequest be method path headers body = [Event.respondErr 501]) := by
  refine ⟨?_, ?_, ?_⟩
  · intro hm hp
    subst hm
    simp [handleRequest, doPOST, hp]
  · intro hm hp
    subst hm
    simp [handleRequest, doGET, hp]
  · intro h1 h2
    simp [handleRequest, h1, h2]

/-- C2, witness for the amended routing at concrete requests. -/
theorem routing_amended_witness :
    handleRequest trivBackend "POST" "/unknown" [] [] = [Event.respondErr 404] ∧
    handleRequest trivBackend "GET" "/unknown" [] [] = [Event.respondErr 404] ∧
    handleRequest trivBackend "PUT" "/unknown" [] [] = [Event.respondErr 501] :=
  ⟨(routing_amended trivBackend "POST" "/unknown" [] []).1 rfl (by decide),
    (routing_amended trivBackend "GET" "/unknown" [] []).2.1 rfl (by decide),
    (routing_amended trivBackend "PUT" "/unknown" [] []).2.2 (by decide) (by decide)⟩

/-! ### C5 — dispatch failure after a successful parse -/

/-- C5, counterexample: the body `5` parses successfully (to a non-mapping),
and against a backend whose dispatch raises, the handler crashes on
`request.get("id")` with an uncaught `AttributeError`: no 500 response with
a `-32603` envelope is written. -/
theorem nonmapping_failure_no_response_counterexample :
    doPOST boomBackend "/mcp" [] (strBytes "5") =
      [Event.dispatchStart, Event.acquire, Event.query "5" none,
        Event.release, Event.uncaught PyExc.attributeError] ∧
    statuses (doPOST boomBackend "/mcp" [] (strBytes "5")) = [] := by
  exact ⟨rfl, rfl⟩

/-- C5, amended: provided the parsed body is a JSON object (a Python
mapping), a dispatch failure — at connection or at query time — is answered
with exactly one response, a 500 carrying a `-32603` envelope whose `id` is
the request's `id` member (`null` when absent, by `dict.get`) and whose
`message` is the failure's text. -/
theorem dispatch_failure_error_envelope (be : Backend)
    (headers : List (String × String)) (body : List Nat)
    (kvs : List (String × Json)) (msg : String) (idv : Json)
    (hparse : jsonLoads body = Except.ok (Json.obj kvs))
    (hid : pyGet (Json.obj kvs) "id" = Except.ok idv)
    (hfail : be.connectResult = Except.error msg ∨
      (be.connectResult = Except.ok () ∧
        be.queryResult (dumps (Json.obj kvs)) (contextParam headers) = Except.error msg)) :
    statuses (doPOST be "/mcp" headers body) = [500] ∧
    Event.respondJson 500 (Json.obj [("jsonrpc", Json.str "2.0"), ("id", idv),
      ("error", Json.obj [("code", Json.num (-32603)), ("message", Json.str msg)])]) ∈
      doPOST be "/mcp" headers body := by
  rcases hfail with hconn | ⟨hconn, hq⟩
  · rw [doPOST_connect_failure be headers body (Json.obj kvs) msg hparse hconn]
    simp [backendFailureEvents, hid, statuses, internalErrorEnvelope]
  · rw [doPOST_query_failure be headers body (Json.obj kvs) msg hparse hconn hq]
    simp [backendFailureEvents, hid, statuses, internalErrorEnvelope]

/-- C5, witness: a query-time failure with `id: "42"` yields the 500
envelope echoing that id, and a connection-time failure with no `id` member
yields it with `id: null`. -/
theorem dispatch_failure_error_envelope_witness :
    (statuses (doPOST boomBackend "/mcp" [] (strBytes "\x7b\"id\": \"42\"\x7d")) = [500] ∧
      Event.respondJson 500 (Json.obj [("jsonrpc", Json.str "2.0"), ("id", Json.str "42"),
        ("error", Json.obj [("code", Json.num (-32603)), ("message", Json.str "boom")])]) ∈
        doPOST boomBackend "/mcp" [] (strBytes "\x7b\"id\": \"42\"\x7d")) ∧
    (statuses (doPOST connFailBackend "/mcp" [] (strBytes "\x7b\x7d")) = [500] ∧
      Event.respondJson 500 (Json.obj [("jsonrpc", Json.str "2.0"), ("id", Json.null),
        ("error", Json.obj [("code", Json.num (-32603)),
          ("message", Json.str "connection refused")])]) ∈
        doPOST connFailBackend "/mcp" [] (strBytes "\x7b\x7d")) :=
  ⟨dispatch_failure_error_envelope boomBackend [] (strBytes "\x7b\"id\": \"42\"\x7d")
      [("id", Json.str "42")] "boom" (Json.str "42") rfl rfl (Or.inr ⟨rfl, rfl⟩),
    dispatch_failure_error_envelope connFailBackend [] (strBytes "\x7b\x7d")
      [] "connection refused" Json.null rfl rfl (Or.inl rfl)⟩

/-! ### C6 — exactly one backend dispatch per request -/

/-- C6, confirmed: per POST `/mcp` request at most one dispatch-stage entry
and at most one backend query occur; a request whose body fails to parse
never reaches the dispatch stage (the backend is not called at all); and a
request whose body parses enters the dispatch stage exactly once. -/
theorem single_dispatch_invariant (be : Backend) (headers : List (String × String))
    (body : List Nat) :
    ((doPOST be "/mcp" headers body).filter isDispatchStart).length ≤ 1 ∧
    ((doPOST be "/mcp" headers body).filter isQuery).length ≤ 1 ∧
    (∀ e : PyExc, jsonLoads body = Except.error e →
      ((doPOST be "/mcp" headers body).filter isDispatchStart).length = 0 ∧
      ((doPOST be "/mcp" headers body).filter isQuery).length = 0) ∧
    (∀ req : Json, jsonLoads body = Except.ok req →
      ((doPOST be "/mcp" headers body).filter isDispatchStart).length = 1) := by
  refine ⟨?_, ?_, ?_, ?_⟩
  all_goals
    cases hjl : jsonLoads body with
    | error e =>
      cases e <;> simp [doPOST, hjl, isDispatchStart, isQuery]
    | ok req =>
      cases hc : be.connectResult with
      | error msg =>
        cases hpg : pyGet req "id" with
        | error ex =>
          simp [doPOST, hjl, hc, backendFailureEvents, hpg, isDispatchStart, isQuery]
        | ok idv =>
          simp [doPOST, hjl, hc, backendFailureEvents, hpg, isDispatchStart, isQuery]
      | ok u =>
        cases hq : be.queryResult (dumps req) (contextParam headers) with
        | error msg =>
          cases hpg : pyGet req "id" with
          | error ex =>
            simp [doPOST, hjl, hc, hq, backendFailureEvents, hpg, isDispatchStart, isQuery]
          | ok idv =>
            simp [doPOST, hjl, hc, hq, backendFailureEvents, hpg, isDispatchStart, isQuery]
        | ok row =>
          simp [doPOST, hjl, hc, hq, isDispatchStart, isQuery]

/-- C6, witness: a parse failure makes no backend call; a parsed request
enters the dispatch stage exactly once. -/
theorem single_dispatch_invariant_witness :
    (((doPOST trivBackend "/mcp" [] (strBytes "not json")).filter isDispatchStart).length = 0 ∧
      ((doPOST trivBackend "/mcp" [] (strBytes "not json")).filter isQuery).length = 0) ∧
    ((doPOST trivBackend "/mcp" [] (strBytes "\x7b\x7d")).filter isDispatchStart).length = 1 :=
  ⟨(single_dispatch_invariant trivBackend [] (strBytes "not json")).2.2.1
      PyExc.jsonDecodeError rfl,
    (single_dispatch_invariant trivBackend [] (strBytes "\x7b\x7d")).2.2.2
      (Json.obj []) rfl⟩

/-! ### C7 — authentication-context extraction -/

/-- The contribution of the `X-User-Id` header to the context. -/
def userPart (hs : List (String × String)) : List (String × String) :=
  match headersGet hs "X-User-Id" with
  | some u => if u = "" then [] else [("user_id", u)]
  | none => []

/-- The contribution of the `X-Tenant-Id` header to the context. -/
def tenantPart (hs : List (String × String)) : List (String × String) :=
  match headersGet hs "X-Tenant-Id" with
  | some u => if u = "" then [] else [("tenant_id", u)]
  | none => []

/-- The extracted context decomposes into the two headers' contributions. -/
theorem extractContext_eq (hs : List (String × String)) :
    extractContext hs = userPart hs ++ tenantPart hs := by
  unfold extractContext userPart tenantPart
  cases hu : headersGet hs "X-User-Id" with
  | none =>
    cases ht : headersGet hs "X-Tenant-Id" with
    | none => simp [truthyOpt]
    | some w => by_cases hw : w = "" <;> simp [truthyOpt, hw]
  | some v =>
    cases ht : headersGet hs "X-Tenant-Id" with
    | none => by_cases hv : v = "" <;> simp [truthyOpt, hv]
    | some w =>
      by_cases hv : v = "" <;> by_cases hw : w = "" <;> simp [truthyOpt, hv, hw]

/-- Membership in the user contribution forces the key, the header value and
its non-emptiness. -/
theorem mem_userPart (hs : List (String × String)) (k v : String)
    (h : (k, v) ∈ userPart hs) :
    k = "user_id" ∧ headersGet hs "X-User-Id" = some v ∧ v ≠ "" := by
  unfold userPart at h
  cases hu : headersGet hs "X-User-Id" with
  | none => rw [hu] at h; simp at h
  | some u =>
    rw [hu] at h
    by_cases hne : u = ""
    · simp [hne] at h
    · simp [hne] at h
      exact ⟨h.1, by rw [h.2], by rw [h.2]; exact hne⟩

/-- Membership in the tenant contribution forces the key, the header value
and its non-emptiness. -/
theorem mem_tenantPart (hs : List (String × String)) (k v : String)
    (h : (k, v) ∈ tenantPart hs) :
    k = "tenant_id" ∧ headersGet hs "X-Tenant-Id" = some v ∧ v ≠ "" := by
  unfold tenantPart at h
  cases ht : headersGet hs "X-Tenant-Id" with
  | none => rw [ht] at h; simp at h
  | some u =>
    rw [ht] at h
    by_cases hne : u = ""
    · simp [hne] at h
    · simp [hne] at h
      exact ⟨h.1, by rw [h.2], by rw [h.2]; exact hne⟩

/-- A present, non-empty `X-User-Id` header contributes its mapped entry. -/
theorem userPart_mem (hs : List (String × String)) (v : String)
    (h : headersGet hs "X-User-Id" = some v) (hne : v ≠ "") :
    ("user_id", v) ∈ userPart hs := by
  unfold userPart; rw [h]; simp [hne]

/-- A present, non-empty `X-Tenant-Id` header contributes its mapped entry. -/
theorem tenantPart_mem (hs : List (String × String)) (v : String)
    (h : headersGet hs "X-Tenant-Id" = some v) (hne : v ≠ "") :
    ("tenant_id", v) ∈ tenantPart hs := by
  unfold tenantPart; rw [h]; simp [hne]

/-- C7, confirmed: for every header map, the context contains `user_id`
exactly when `X-User-Id` is present and non-empty (with the literal header
value), likewise `tenant_id` for `X-Tenant-Id`; it holds no other keys and
no empty values; extraction is total; and it depends only on the two
recognized header lookups, so all unrecognized headers are ignored. -/
theorem context_extraction_correct (hs : List (String × String)) :
    (∀ v, headersGet hs "X-User-Id" = some v → v ≠ "" →
      ("user_id", v) ∈ extractContext hs) ∧
    (∀ v, ("user_id", v) ∈ extractContext hs →
      headersGet hs "X-User-Id" = some v ∧ v ≠ "") ∧
    (∀ v, headersGet hs "X-Tenant-Id" = some v → v ≠ "" →
      ("tenant_id", v) ∈ extractContext hs) ∧
    (∀ v, ("tenant_id", v) ∈ extractContext hs →
      headersGet hs "X-Tenant-Id" = some v ∧ v ≠ "") ∧
    (∀ k v, (k, v) ∈ extractContext hs → (k = "user_id" ∨ k = "tenant_id") ∧ v ≠ "") ∧
    (∀ hs2 : List (String × String),
      headersGet hs2 "X-User-Id" = headersGet hs "X-User-Id" →
      headersGet hs2 "X-Tenant-Id" = headersGet hs "X-Tenant-Id" →
      extractContext hs2 = extractContext hs) := by
  refine ⟨?_, ?_, ?_, ?_, ?_, ?_⟩
  · intro v hv hne
    rw [extractContext_eq]
    exact List.mem_append_left _ (userPart_mem hs v hv hne)
  · intro v hv
    rw [extractContext_eq] at hv
    rcases List.mem_append.mp hv with h | h
    · exact (mem_userPart hs _ _ h).2
    · exact absurd (mem_tenantPart hs _ _ h).1 (by decide)
  · intro v hv hne
    rw [extractContext_eq]
    exact List.mem_append_right _ (tenantPart_mem hs v hv hne)
  · intro v hv
    rw [extractContext_eq] at hv
    rcases List.mem_append.mp hv with h | h
    · exact absurd (mem_userPart hs _ _ h).1 (by decide)
    · exact (mem_tenantPart hs _ _ h).2
  · intro k v hv
    rw [extractContext_eq] at hv
    rcases List.mem_append.mp hv with h | h
    · exact ⟨Or.inl (mem_userPart hs _ _ h).1, (mem_userPart hs _ _ h).2.2⟩
    · exact ⟨Or.inr (mem_tenantPart hs _ _ h).1, (mem_tenantPart hs _ _ h).2.2⟩
  · intro hs2 h1 h2
    rw [extractContext_eq hs, extractContext_eq hs2]
    unfold userPart tenantPart
    rw [h1, h2]

/-- C7, witness: the header list `X-User-Id: u1` (and no tenant header)
produces the context entry `user_id ↦ u1`, and that context is exactly
`[("user_id", "u1")]`. -/
theorem context_extraction_correct_witness :
    ("user_id", "u1") ∈ extractContext [("X-User-Id", "u1")] ∧
    extractContext [("X-User-Id", "u1")] = [("user_id", "u1")] :=
  ⟨(context_extraction_correct [("X-User-Id", "u1")]).1 "u1" rfl (by decide),
    by decide⟩

/-! ### C8 — empty context is passed as an absent marker -/

/-- C8, confirmed: when no recognized non-empty header is present the
Dispatcher Client passes `None` (SQL `NULL`) as the context parameter — not
an empty JSON object — and when the context is non-empty it passes the
serialized context JSON; every backend query of a POST `/mcp` request
carries exactly that parameter. -/
theorem empty_context_passed_absent (hs : List (String × String)) :
    (extractContext hs = [] → contextParam hs = none) ∧
    (extractContext hs ≠ [] →
      contextParam hs = some (dumps (Json.obj
        ((extractContext hs).map (fun kv => (kv.1, Json.str kv.2)))))) ∧
    (∀ (be : Backend) (body : List Nat) (r : String) (c : Option String),
      Event.query r c ∈ doPOST be "/mcp" hs body → c = contextParam hs) := by
  refine ⟨?_, ?_, ?_⟩
  · intro h
    simp [contextParam, h]
  · intro h
    simp [contextParam, List.isEmpty_iff, h]
  · intro be body r c hmem
    cases hjl : jsonLoads body with
    | error e =>
      cases e <;> simp [doPOST, hjl] at hmem
    | ok req =>
      cases hc : be.connectResult with
      | error msg =>
        cases hpg : pyGet req "id" with
        | error ex => simp [doPOST, hjl, hc, backendFailureEvents, hpg] at hmem
        | ok idv => simp [doPOST, hjl, hc, backendFailureEvents, hpg] at hmem
      | ok u =>
        cases hq : be.queryResult (dumps req) (contextParam hs) with
        | error msg =>
          cases hpg : pyGet req "id" with
          | error ex =>
            simp [doPOST, hjl, hc, hq, backendFailureEvents, hpg] at hmem
            exact hmem.2
          | ok idv =>
            simp [doPOST, hjl, hc, hq, backendFailureEvents, hpg] at hmem
            exact hmem.2
        | ok row =>
          simp [doPOST, hjl, hc, hq] at hmem
          exact hmem.2

/-- C8, witness: with no headers the single query of a request carries the
absent marker, and with `X-User-Id: u1` the context parameter is the
serialized one-entry context object. -/
theorem empty_context_passed_absent_witness :
    (none : Option String) = contextParam [] ∧
    contextParam [("X-User-Id", "u1")] = some "\x7b\"user_id\": \"u1\"\x7d" :=
  ⟨(empty_context_passed_absent []).2.2 trivBackend (strBytes "\x7b\x7d") "\x7b\x7d" none
      (List.Mem.tail _ (List.Mem.tail _ (List.Mem.head _))),
    ((empty_context_passed_absent [("X-User-Id", "u1")]).2.1 (by decide)).trans rfl⟩

/-! ### C10 — non-mapping request bodies are forwarded, and crash the
error path -/

/-- C10, confirmed: a body parsing to a non-object JSON value is still
forwarded to the backend dispatch; when that dispatch fails, the 500-error
synthesis evaluates `request.get("id")` on the non-mapping value, which
raises `AttributeError`, so no response at all is written — the promised
`-32603` response is only guaranteed for mapping bodies. -/
theorem nonmapping_forwarded_raises (be : Backend)
    (headers : List (String × String)) (body : List Nat) (req : Json) (msg : String)
    (hparse : jsonLoads body = Except.ok req)
    (hobj : req.isObjB = false)
    (hconn : be.connectResult = Except.ok ())
    (hq : be.queryResult (dumps req) (contextParam headers) = Except.error msg) :
    doPOST be "/mcp" headers body =
      [Event.dispatchStart, Event.acquire,
        Event.query (dumps req) (contextParam headers),
        Event.release, Event.uncaught PyExc.attributeError] ∧
    statuses (doPOST be "/mcp" headers body) = [] := by
  have hpg : pyGet req "id" = Except.error PyExc.attributeError := by
    cases req <;> first
      | rfl
      | simp [Json.isObjB] at hobj
  rw [doPOST_query_failure be headers body req msg hparse hconn hq]
  simp [backendFailureEvents, hpg, statuses]

/-- C10, witness: the non-mapping body `5` against a failing backend is
dispatched and then crashes the handler without a response. -/
theorem nonmapping_forwarded_raises_witness :
    doPOST boomBackend "/mcp" [] (strBytes "5") =
      [Event.dispatchStart, Event.acquire,
        Event.query (dumps (Json.num 5)) (contextParam []),
        Event.release, Event.uncaught PyExc.attributeError] ∧
    statuses (doPOST boomBackend "/mcp" [] (strBytes "5")) = [] :=
  nonmapping_forwarded_raises boomBackend [] (strBytes "5") (Json.num 5) "boom"
    rfl rfl rfl rfl

/-! ### C9 — connection scoping discipline -/

/-- The connection discipline on POST `/mcp` traces: the trace never
responds or escapes while the connection is held and never ends holding it
(`connSafe`), at most one acquisition and one query occur, and once the
body has parsed and the connection was established there is exactly one
acquisition and one release. -/
theorem doPOST_conn_discipline (be : Backend) (headers : List (String × String))
    (body : List Nat) :
    connSafe (doPOST be "/mcp" headers body) false = true ∧
    ((doPOST be "/mcp" headers body).filter isAcquire).length ≤ 1 ∧
    ((doPOST be "/mcp" headers body).filter isQuery).length ≤ 1 ∧
    (∀ req : Json, jsonLoads body = Except.ok req → be.connectResult = Except.ok () →
      ((doPOST be "/mcp" headers body).filter isAcquire).length = 1 ∧
      ((doPOST be "/mcp" headers body).filter isRelease).length = 1) := by
  refine ⟨?_, ?_, ?_, ?_⟩
  all_goals
    cases hjl : jsonLoads body with
    | error e =>
      cases e <;> simp [doPOST, hjl, connSafe, isAcquire, isQuery, isRelease]
    | ok req =>
      cases hc : be.connectResult with
      | error msg =>
        cases hpg : pyGet req "id" with
        | error ex =>
          simp [doPOST, hjl, hc, backendFailureEvents, hpg, connSafe,
            isAcquire, isQuery, isRelease]
        | ok idv =>
          simp [doPOST, hjl, hc, backendFailureEvents, hpg, connSafe,
            isAcquire, isQuery, isRelease]
      | ok u =>
        cases hq : be.queryResult (dumps req) (contextParam headers) with
        | error msg =>
          cases hpg : pyGet req "id" with
          | error ex =>
            simp [doPOST, hjl, hc, hq, backendFailureEvents, hpg, connSafe,
              isAcquire, isQuery, isRelease]
          | ok idv =>
            simp [doPOST, hjl, hc, hq, backendFailureEvents, hpg, connSafe,
              isAcquire, isQuery, isRelease]
        | ok row =>
          simp [doPOST, hjl, hc, hq, connSafe, isAcquire, isQuery, isRelease]

/-- C9, confirmed: on every inbound request the gateway never writes a
response (nor lets an exception escape) while holding the backend
connection, acquires it at most once and queries at most once; and for a
POST `/mcp` request that parses and whose connection is established, the
connection is acquired exactly once for the single dispatch call and
released exactly once — before the response — on every outcome. -/
theorem connection_scoped_and_released (be : Backend) (method path : String)
    (headers : List (String × String)) (body : List Nat) :
    connSafe (handleRequest be method path headers body) false = true ∧
    ((handleRequest be method path headers body).filter isAcquire).length ≤ 1 ∧
    ((handleRequest be method path headers body).filter isQuery).length ≤ 1 ∧
    (∀ req : Json, method = "POST" → path = "/mcp" →
      jsonLoads body = Except.ok req → be.connectResult = Except.ok () →
      ((handleRequest be method path headers body).filter isAcquire).length = 1 ∧
      ((handleRequest be method path headers body).filter isRelease).length = 1) := by
  by_cases hm : method = "POST"
  · subst hm
    have hh : handleRequest be "POST" path headers body = doPOST be path headers body := by
      simp [handleRequest]
    by_cases hp : path = "/mcp"
    · subst hp
      rw [hh]
      obtain ⟨h1, h2, h3, h4⟩ := doPOST_conn_discipline be headers body
      exact ⟨h1, h2, h3, fun req _ _ hjl hc => h4 req hjl hc⟩
    · have hd : doPOST be path headers body = [Event.respondErr 404] := by
        simp [doPOST, hp]
      rw [hh, hd]
      refine ⟨rfl, by decide, by decide, ?_⟩
      intro req _ hp2
      exact absurd hp2 hp
  · by_cases hg : method = "GET"
    · subst hg
      have hh : handleRequest be "GET" path headers body = doGET path := by
        simp [handleRequest]
      rw [hh]
      by_cases hp : path = "/health"
      · subst hp
        refine ⟨rfl, by decide, by decide, ?_⟩
        intro req hPOST
        exact absurd hPOST (by decide)
      · have hd : doGET path = [Event.respondErr 404] := by
          simp [doGET, hp]
        rw [hd]
        refine ⟨rfl, by decide, by decide, ?_⟩
        intro req hPOST
        exact absurd hPOST (by decide)
    · have hh : handleRequest be method path headers body = [Event.respondErr 501] := by
        simp [handleRequest, hm, hg]
      rw [hh]
      refine ⟨rfl, by decide, by decide, ?_⟩
      intro req hPOST
      exact absurd hPOST hm

/-- C9, witness: a parsed request against a backend whose query fails still
acquires and releases the connection exactly once, and the whole trace
respects the connection discipline. -/
theorem connection_scoped_and_released_witness :
    connSafe (handleRequest boomBackend "POST" "/mcp" [] (strBytes "\x7b\x7d")) false = true ∧
    ((handleRequest boomBackend "POST" "/mcp" [] (strBytes "\x7b\x7d")).filter
      isAcquire).length = 1 ∧
    ((handleRequest boomBackend "POST" "/mcp" [] (strBytes "\x7b\x7d")).filter
      isRelease).length = 1 :=
  ⟨(connection_scoped_and_released boomBackend "POST" "/mcp" [] (strBytes "\x7b\x7d")).1,
    ((connection_scoped_and_released boomBackend "POST" "/mcp" []
        (strBytes "\x7b\x7d")).2.2.2 (Json.obj []) rfl rfl rfl rfl).1,
    ((connection_scoped_and_released boomBackend "POST" "/mcp" []
        (strBytes "\x7b\x7d")).2.2.2 (Json.obj []) rfl rfl rfl rfl).2⟩
